import Mathlib

/-!
Verification development for the candidate-selection and tiering engine of
`src/backend/main.py` (a "deal or no deal" basketball game backend).

Modelling conventions:
* Python `float` arithmetic is modelled by exact rational arithmetic (`ℚ`);
  the numeric literals (`1.2`, `32.0`, …) denote the same rational values.
* Python `int(x)` on a number truncates toward zero (`pyTruncInt`); on a
  string it parses an optional sign followed by digits after stripping
  whitespace (`pyIntOfChars`).
* Values coming from the external data frames may be numbers or
  non-numeric junk (`Val.junk`), on which `float()` / `int()` raise; raising
  is modelled by `Except.error`.
* `random.Random(seed)` is modelled by an abstract deterministic generator
  (`PRNG`): a state type, a seeding function and `randbelow`, the primitive
  used by both `Random.choice` (`seq[self._randbelow(len(seq))]`) and
  `Random.shuffle` (Fisher–Yates descending, `j = _randbelow(i + 1)`).
-/

deriving instance DecidableEq for Except

attribute [local semireducible] Rat.add Rat.sub Rat.mul Rat.inv Rat.ofScientific

set_option maxRecDepth 10000
set_option maxHeartbeats 1600000

/-- Python `int()` applied to a rational number: truncation toward zero. -/
def pyTruncInt (q : ℚ) : ℤ :=
  if q < 0 then -(Int.floor (-q)) else Int.floor q

/-- A cell of a provider data row: either a numeric value or non-numeric
junk on which `float()` / `int()` raise. -/
inductive Val where
  | num : ℚ → Val
  | junk : Val
deriving DecidableEq, Repr

/-- Python `float(v)` on a cell value. -/
def pyFloat : Val → Except Unit ℚ
  | .num q => .ok q
  | .junk => .error ()

/-- Python `int(v)` on a cell value (truncation for numbers, raise on junk). -/
def pyIntOfVal : Val → Except Unit ℤ
  | .num q => .ok (pyTruncInt q)
  | .junk => .error ()

/-- Python `str.upper()` (ASCII): uppercase every character. -/
def pyUpper (s : String) : String :=
  ⟨s.data.map Char.toUpper⟩

/-- Python `str.strip()` on a character list: remove leading and trailing
whitespace. -/
def pyStripChars (l : List Char) : List Char :=
  ((l.dropWhile Char.isWhitespace).reverse.dropWhile Char.isWhitespace).reverse

/-- Python `str.strip()`. -/
def pyStrip (s : String) : String :=
  ⟨pyStripChars s.data⟩

/-- Python `s.split(sep, 1)`: split at the first occurrence of `sep`;
`none` when `sep` does not occur. -/
def splitFirst (sep : Char) : List Char → Option (List Char × List Char)
  | [] => none
  | c :: rest =>
    if c = sep then some ([], rest)
    else
      match splitFirst sep rest with
      | none => none
      | some (a, b) => some (c :: a, b)

/-- Python `int(s)` on a character list: strip whitespace, optional sign,
digits.  (Underscore digit grouping and unicode digits are not modelled.) -/
def pyIntOfChars (l : List Char) : Option ℤ :=
  let t := pyStripChars l
  let sd : ℤ × List Char :=
    match t with
    | '-' :: rest => (-1, rest)
    | '+' :: rest => (1, rest)
    | _ => (1, t)
  if sd.2 = [] then none
  else if sd.2.all Char.isDigit then
    some (sd.1 *
      (sd.2.foldl (fun n c => n * 10 + ((c.toNat : ℤ) - ('0'.toNat : ℤ))) 0))
  else none

/-- `parse_height_inches` from `main.py`: converts height strings like
`"6-8"` into total inches, `0` if missing or invalid.  (`s.split("-", 1)`
yields the text before the first hyphen and everything after it; a
`ValueError` from `int()` is caught and yields `0`.) -/
def parse_height_inches (height_text : String) : ℤ :=
  if height_text = "" then 0
  else
    match splitFirst '-' (pyStripChars height_text.data) with
    | none => 0
    | some (feet_str, inch_str) =>
      match pyIntOfChars feet_str, pyIntOfChars inch_str with
      | some ft, some inch => ft * 12 + inch
      | _, _ => 0

/-- `normalize_position` from `main.py`: derive PG / SG / SF / PF / C from
roster position, height and 3PT% (on the 0–100 scale). -/
def normalize_position (raw_pos : String) (height_text : String)
    (fg3_pct_percent : ℚ) : String :=
  let p := pyStrip (pyUpper raw_pos)
  let h := parse_height_inches height_text
  if p = "F-C" then
    if 82 ≤ h then "C" else "PF"
  else if p = "F" then
    if 81 ≤ h then "PF"
    else if 32.0 ≤ fg3_pct_percent then "SF" else "PF"
  else if p = "G-F" then
    if 78 ≤ h then "SF" else "SG"
  else if p = "G" then
    if 77 ≤ h then "SG" else "PG"
  else if p = "C" then "C"
  else "SF"

/-- One row of the league-wide stats table, as consumed by the engine.
A field that the provider did not supply is `none`. -/
structure StatRowR where
  PLAYER_ID : Option Val := none
  GP : Option Val := none
  MIN : Option Val := none
  PTS : Option Val := none
  REB : Option Val := none
  AST : Option Val := none
  STL : Option Val := none
  BLK : Option Val := none
  TOV : Option Val := none
  FG3_PCT : Option Val := none
deriving DecidableEq, Repr

/-- `three_pt_pct` from `main.py`: 3PT% as a percent number (0–100); the
`float()` failure is caught and coerced to `0.0`. -/
def three_pt_pct (row : StatRowR) : ℚ :=
  match pyFloat (row.FG3_PCT.getD (.num 0)) with
  | .error _ => 0
  | .ok v => if v ≤ 1.0 then v * 100.0 else v

/-- `production_score_pergame` from `main.py`.  The `float()` calls are not
guarded, so junk fields raise (propagate as `Except.error`). -/
def production_score_pergame (row : StatRowR) : Except Unit ℚ := do
  let pts ← pyFloat (row.PTS.getD (.num 0))
  let reb ← pyFloat (row.REB.getD (.num 0))
  let ast ← pyFloat (row.AST.getD (.num 0))
  let stl ← pyFloat (row.STL.getD (.num 0))
  let blk ← pyFloat (row.BLK.getD (.num 0))
  let tov ← pyFloat (row.TOV.getD (.num 0))
  pure (pts + 1.2 * reb + 1.5 * ast + 3.0 * stl + 3.0 * blk - 2.0 * tov)

/-- `clamp_tier` from `main.py`: `max(1, min(16, t))`. -/
def clamp_tier (t : ℤ) : ℕ :=
  (max 1 (min 16 t)).toNat

/-- A scored candidate (`{"id", "name", "team", "score"}` dict). -/
structure Candidate where
  id : ℤ
  name : String
  team : String
  score : ℚ
deriving DecidableEq, Repr

/-- The 0-based tier index assigned by `split_into_16_tiers` to the
candidate at 0-based rank `i` in a sorted pool of size `n`:
`rank = 1.0 - (i / (n - 1) if n > 1 else 0.0)`,
`tier_idx = min(15, max(0, 15 - int((rank ** 2) * 16)))` with `gamma = 2`. -/
def tier_idx (i n : ℕ) : ℕ :=
  let rank : ℚ := 1 - (if 1 < n then (i : ℚ) / ((n : ℚ) - 1) else 0)
  let raw : ℤ := 15 - pyTruncInt ((rank ^ 2) * 16)
  (min 15 (max 0 raw)).toNat

/-- `split_into_16_tiers` from `main.py`.  The Python loop appends each
player, in enumeration order, to `tiers[tier_idx]`; hence tier `t` holds
exactly the players whose enumeration index maps to `t`, in order. -/
def split_into_16_tiers (players_sorted_desc : List Candidate) :
    List (List Candidate) :=
  let n := players_sorted_desc.length
  (List.range 16).map (fun t =>
    (players_sorted_desc.enum.filter (fun p => tier_idx p.1 n == t)).map Prod.snd)

/-- Roster metadata for one player (`ROSTER_META` entry). -/
structure RosterMeta where
  name : String
  team : String
  raw_pos : String
  height : String
deriving DecidableEq, Repr

/-- The process-wide roster snapshot: an association from player id to
metadata (`ROSTER_META`; dict keys are unique, lookup by first match). -/
def rosterLookup (roster : List (ℤ × RosterMeta)) (pid : ℤ) : Option RosterMeta :=
  (roster.find? (fun e => e.1 == pid)).map Prod.snd

/-- Failure conditions surfaced by the engine (HTTP error classes of
`main.py`, plus `fault` for an uncaught exception). -/
inductive Err where
  /-- 400: slot must be one of PG, SG, SF, PF, C. -/
  | invalidSlot : Err
  /-- 503: roster map empty. -/
  | rosterEmpty : Err
  /-- 400: not enough candidates (`n` found). -/
  | notEnough : ℕ → Err
  /-- 500: tier `t` ended up empty. -/
  | tierEmpty : ℕ → Err
  /-- an uncaught exception escaping the handler (e.g. `float()` on junk). -/
  | fault : Err
  /-- 404: no available banker offer found after exclusions. -/
  | notFound : Err
deriving DecidableEq, Repr

/-- The five canonical slots. -/
def validSlots : List String := ["PG", "SG", "SF", "PF", "C"]

/-- The per-row body of the `build_candidates` scan (everything inside
`for _, row in df.iterrows()`): skip on missing/junk id, missing roster
entry, `gp <= 0 or min_pg <= 0`, or slot mismatch; junk numeric stat
fields are unguarded and raise. -/
def buildCandidatesLoop (roster : List (ℤ × RosterMeta))
    (slot_norm : Option String) : List StatRowR → Except Err (List Candidate)
  | [] => .ok []
  | row :: rest =>
    match row.PLAYER_ID with
    | none => buildCandidatesLoop roster slot_norm rest
    | some v =>
      match pyIntOfVal v with
      | .error _ => buildCandidatesLoop roster slot_norm rest
      | .ok pid =>
        match rosterLookup roster pid with
        | none => buildCandidatesLoop roster slot_norm rest
        | some meta =>
          match pyFloat (row.GP.getD (.num 0)) with
          | .error _ => .error .fault
          | .ok gp =>
            match pyFloat (row.MIN.getD (.num 0)) with
            | .error _ => .error .fault
            | .ok min_pg =>
              if gp ≤ 0 ∨ min_pg ≤ 0 then
                buildCandidatesLoop roster slot_norm rest
              else
                let slotMismatch :=
                  match slot_norm with
                  | none => false
                  | some s =>
                    normalize_position meta.raw_pos meta.height (three_pt_pct row) != s
                if slotMismatch then
                  buildCandidatesLoop roster slot_norm rest
                else
                  match production_score_pergame row with
                  | .error _ => .error .fault
                  | .ok score =>
                    match buildCandidatesLoop roster slot_norm rest with
                    | .error e => .error e
                    | .ok cs =>
                      .ok ({ id := pid, name := meta.name, team := meta.team,
                             score := score } :: cs)

/-- `build_candidates` from `main.py`: validate the slot, require a
non-empty roster snapshot, then scan the stats rows. -/
def build_candidates (roster : List (ℤ × RosterMeta)) (stats : List StatRowR)
    (slot : Option String) : Except Err (List Candidate) :=
  let slotCheck : Except Err (Option String) :=
    match slot with
    | none => .ok none
    | some s =>
      let s' := pyStrip (pyUpper s)
      if validSlots.contains s' then .ok (some s') else .error .invalidSlot
  match slotCheck with
  | .error e => .error e
  | .ok slot_norm =>
    if roster = [] then .error .rosterEmpty
    else buildCandidatesLoop roster slot_norm stats

/-- An abstract deterministic pseudo-random generator, modelling
`random.Random(seed)`.  `randbelow` is `Random._randbelow(k)`, which
returns a value in `[0, k)` whenever `0 < k`. -/
structure PRNG (σ : Type) where
  init : ℤ → σ
  randbelow : σ → ℕ → ℕ × σ
  randbelow_lt : ∀ s k, 0 < k → (randbelow s k).1 < k

/-- `Random.choice(seq)`: `seq[self._randbelow(len(seq))]`; returns `none`
on an empty sequence (Python raises there, but every call site in
`main.py` guards non-emptiness first). -/
def choiceO {σ : Type} (R : PRNG σ) (s : σ) {α : Type} (l : List α) :
    Option (α × σ) :=
  match l with
  | [] => none
  | a :: rest =>
    let p := R.randbelow s (a :: rest).length
    some ((a :: rest).get
      ⟨p.1, R.randbelow_lt s (a :: rest).length (Nat.succ_pos rest.length)⟩, p.2)

/-- The draw loop of `build_case_pool_from_candidates`:
`for tier_index, tier_players in enumerate(tiers, start=1)`, raising 500
on an empty tier, otherwise `rng.choice(tier_players)`. -/
def drawTiers {σ : Type} (R : PRNG σ) :
    List (List Candidate) → ℕ → σ → Except Err (List (ℕ × Candidate) × σ)
  | [], _, s => .ok ([], s)
  | tier :: rest, idx, s =>
    match choiceO R s tier with
    | none => .error (.tierEmpty idx)
    | some (pick, s') =>
      match drawTiers R rest (idx + 1) s' with
      | .error e => .error e
      | .ok (picks, s'') => .ok ((idx, pick) :: picks, s'')

/-- Swap the elements at positions `i` and `j` (`x[i], x[j] = x[j], x[i]`). -/
def listSwap {α : Type} (l : List α) (i j : ℕ) : List α :=
  match l.get? i, l.get? j with
  | some a, some b => (l.set i b).set j a
  | _, _ => l

/-- The body of `Random.shuffle`: for `i` from the first argument down to
`1`, draw `j = _randbelow(i + 1)` and swap positions `i` and `j`. -/
def shuffleAux {σ : Type} (R : PRNG σ) {α : Type} :
    ℕ → List α → σ → List α × σ
  | 0, l, s => (l, s)
  | i + 1, l, s =>
    let p := R.randbelow s (i + 2)
    shuffleAux R i (listSwap l (i + 1) p.1) p.2

/-- `rng.shuffle(x)`: Fisher–Yates over `reversed(range(1, len(x)))`,
continuing the generator state. -/
def pyShuffle {σ : Type} (R : PRNG σ) {α : Type} (l : List α) (s : σ) :
    List α × σ :=
  shuffleAux R (l.length - 1) l s

/-- Python `round(q, 2)` on exact rationals: round half to even at the
second decimal place (binary-float representation effects abstracted). -/
def pyRound2 (q : ℚ) : ℚ :=
  let x := q * 100
  let f := Int.floor x
  let r := x - f
  let n : ℤ :=
    if r < 1 / 2 then f
    else if 1 / 2 < r then f + 1
    else if f % 2 = 0 then f else f + 1
  (n : ℚ) / 100

/-- Player reference inside a case (`{"id", "name", "team"}`). -/
structure PlayerRef where
  id : ℤ
  name : String
  team : String
deriving DecidableEq, Repr

/-- One generated case record. -/
structure CaseRec where
  case_number : ℕ
  tier : ℕ
  player : PlayerRef
  score : ℚ
deriving DecidableEq, Repr

/-- `candidates.sort(key=lambda x: x["score"], reverse=True)`: stable
descending sort by score.  (Python's sort is stable; any stable sort with
the same total preorder produces the same list, so insertion sort — which
keeps an element before later equal-scored ones — is behaviorally
identical.) -/
def sortByScoreDesc (l : List Candidate) : List Candidate :=
  l.insertionSort (fun a b => b.score ≤ a.score)

/-- `build_case_pool_from_candidates` from `main.py`: sort, require ≥ 16,
split into tiers, seed one generator, draw one player per tier (tier 1
first), shuffle the 16 picks with the same generator, then number them. -/
def build_case_pool_from_candidates {σ : Type} (R : PRNG σ)
    (candidates : List Candidate) (seed : ℤ) : Except Err (List CaseRec) :=
  let sorted := sortByScoreDesc candidates
  if sorted.length < 16 then .error (.notEnough sorted.length)
  else
    let tiers := split_into_16_tiers sorted
    match drawTiers R tiers 1 (R.init seed) with
    | .error e => .error e
    | .ok (chosen, s1) =>
      let shuffled := (pyShuffle R chosen s1).1
      .ok (shuffled.enum.map (fun e =>
        { case_number := e.1 + 1
          tier := e.2.1
          player := { id := e.2.2.id, name := e.2.2.name, team := e.2.2.team }
          score := pyRound2 e.2.2.score }))

/-- The `/game/cases_by_slot` endpoint body: build the candidate pool,
then the case pool. -/
def generate_cases_by_slot {σ : Type} (R : PRNG σ)
    (roster : List (ℤ × RosterMeta)) (stats : List StatRowR) (seed : ℤ)
    (slot : Option String) : Except Err (List CaseRec) :=
  match build_candidates roster stats slot with
  | .error e => .error e
  | .ok candidates => build_case_pool_from_candidates R candidates seed

/-- The outward tier search order of `banker_offer`: the clamped target,
then for `d in range(1, 16)` first `desired - d` (if `>= 1`) then
`desired + d` (if `<= 16`). -/
def tier_order (desired : ℕ) : List ℕ :=
  desired :: ((List.range 15).map (fun d0 =>
    let d : ℕ := d0 + 1
    (if 1 ≤ (desired : ℤ) - (d : ℤ) then ([desired - d] : List ℕ) else []) ++
    (if desired + d ≤ 16 then ([desired + d] : List ℕ) else []))).flatten

/-- The result of a banker offer. -/
structure Offer where
  target_tier : ℕ
  picked_tier : ℕ
  player : PlayerRef
deriving DecidableEq, Repr

/-- The eligible pool of tier `t` (1-based): the tier's players whose id
is not excluded. -/
def eligiblePool (tiers : List (List Candidate)) (exclude : List ℤ)
    (t : ℕ) : List Candidate :=
  (tiers.getD (t - 1) []).filter (fun p => !(exclude.contains p.id))

/-- The search loop of `banker_offer`: for each tier in the order, filter
out excluded ids; on the first non-empty pool draw one player (the
generator state is still the freshly seeded one). -/
def searchLoop {σ : Type} (R : PRNG σ) (tiers : List (List Candidate))
    (exclude : List ℤ) (s : σ) (desired : ℕ) :
    List ℕ → Except Err Offer
  | [] => .error .notFound
  | t :: rest =>
    match choiceO R s (eligiblePool tiers exclude t) with
    | none => searchLoop R tiers exclude s desired rest
    | some (pick, _) =>
      .ok { target_tier := desired, picked_tier := t
            player := { id := pick.id, name := pick.name, team := pick.team } }

/-- The `/game/banker_offer` endpoint body from `main.py` (the
comma-separated id parsing is abstracted into the exclusion list). -/
def banker_offer {σ : Type} (R : PRNG σ) (roster : List (ℤ × RosterMeta))
    (stats : List StatRowR) (slot : String) (target_tier : ℤ) (seed : ℤ)
    (exclude : List ℤ) : Except Err Offer :=
  let slot_norm := pyStrip (pyUpper slot)
  if ¬ (validSlots.contains slot_norm) then .error .invalidSlot
  else
    match build_candidates roster stats (some slot_norm) with
    | .error e => .error e
    | .ok candidates =>
      let sorted := sortByScoreDesc candidates
      if sorted.length < 16 then .error (.notEnough sorted.length)
      else
        let tiers := split_into_16_tiers sorted
        let s0 := R.init seed
        let desired := clamp_tier target_tier
        searchLoop R tiers exclude s0 desired (tier_order desired)

/-! ### Specification-side definitions

These follow the spec's words (not the source) and are compared with the
source-derived definitions in the refinement theorems below. -/

/-- Spec-side tier formula (§4.4): `rank_fraction = 1 − i/(n−1)` (or `1.0`
if `n = 1`), `tier_index = 15 − floor((rank_fraction^2) * 16)` clamped to
`[0, 15]`. -/
def spec_tier_index (i n : ℕ) : ℕ :=
  let rf : ℚ := if n = 1 then 1 else 1 - (i : ℚ) / ((n : ℚ) - 1)
  let raw : ℤ := 15 - Int.floor ((rf ^ 2) * 16)
  (min 15 (max 0 raw)).toNat

/-- Spec-side search order (§4.6): start at the target tier and expand
outward by increasing distance, lower before higher at each distance,
skipping indices outside `[1, 16]`. -/
def spec_search_order (t : ℕ) : List ℕ :=
  t :: ((List.range 15).map (fun d0 =>
    let d : ℕ := d0 + 1
    ([(t : ℤ) - (d : ℤ), (t : ℤ) + (d : ℤ)].filter
      (fun x => decide (1 ≤ x) && decide (x ≤ 16))).map Int.toNat)).flatten

/-- Spec-side banker search: the result comes from the first tier in the
search order whose exclusion-filtered pool is non-empty; exhaustion fails
with not-found. -/
def spec_resolve {σ : Type} (R : PRNG σ) (tiers : List (List Candidate))
    (exclude : List ℤ) (s : σ) (desired : ℕ) : Except Err Offer :=
  match (spec_search_order desired).find?
      (fun t => !(eligiblePool tiers exclude t).isEmpty) with
  | none => .error .notFound
  | some t =>
    match choiceO R s (eligiblePool tiers exclude t) with
    | none => .error .notFound
    | some (pick, _) =>
      .ok { target_tier := desired, picked_tier := t
            player := { id := pick.id, name := pick.name, team := pick.team } }

/-- Spec-side banker offer (§4.6): rebuild the slot-filtered pool,
re-partition, clamp the target, then search per `spec_resolve` with a
freshly seeded generator. -/
def spec_banker_offer {σ : Type} (R : PRNG σ) (roster : List (ℤ × RosterMeta))
    (stats : List StatRowR) (slot : String) (target_tier : ℤ) (seed : ℤ)
    (exclude : List ℤ) : Except Err Offer :=
  let slot_norm := pyStrip (pyUpper slot)
  if ¬ (validSlots.contains slot_norm) then .error .invalidSlot
  else
    match build_candidates roster stats (some slot_norm) with
    | .error e => .error e
    | .ok candidates =>
      let sorted := sortByScoreDesc candidates
      if sorted.length < 16 then .error (.notEnough sorted.length)
      else
        spec_resolve R (split_into_16_tiers sorted) exclude (R.init seed)
          (clamp_tier target_tier)

/-! ### Concrete demo data (used by witnesses and counterexamples) -/

/-- A concrete generator instance: the state is a counter-like natural,
`randbelow` reduces it modulo the bound and advances it. -/
def rngDemo : PRNG ℕ where
  init s := s.toNat
  randbelow s k := (s % k, s + 1)
  randbelow_lt _ _ hk := Nat.mod_lt _ hk

/-- A pool of exactly 16 candidates with distinct descending scores. -/
def demoPool16 : List Candidate :=
  (List.range 16).map (fun i =>
    { id := (i : ℤ) + 1, name := "p", team := "t", score := (16 : ℚ) - i })

/-- A roster snapshot of 34 short guards (all classified PG). -/
def demoRoster34 : List (ℤ × RosterMeta) :=
  (List.range 34).map (fun i =>
    ((i : ℤ) + 1, { name := "p", team := "t", raw_pos := "G", height := "6-0" }))

/-- A stats snapshot of 34 rows with distinct descending points. -/
def demoStats34 : List StatRowR :=
  (List.range 34).map (fun i =>
    { PLAYER_ID := some (.num ((i : ℚ) + 1)), GP := some (.num 1)
      MIN := some (.num 1), PTS := some (.num ((34 : ℚ) - i))
      FG3_PCT := some (.num 0) })

/-- A one-player roster snapshot. -/
def demoRoster1 : List (ℤ × RosterMeta) :=
  [(1, { name := "p", team := "t", raw_pos := "G", height := "6-0" })]

/-- A stats row whose GP cell is non-numeric junk (valid id, valid MIN). -/
def demoJunkGPRow : StatRowR :=
  { PLAYER_ID := some (.num 1), GP := some .junk, MIN := some (.num 1) }

/-- A stats row with no player id and a junk three-point field. -/
def demoNoIdRow : StatRowR :=
  { FG3_PCT := some .junk }

/-- Two generator implementations are bisimilar along `Rel` when seeding
relates their states and `randbelow` returns equal values from related
states, leaving related states. -/
def Bisim {σ₁ σ₂ : Type} (R₁ : PRNG σ₁) (R₂ : PRNG σ₂)
    (Rel : σ₁ → σ₂ → Prop) : Prop :=
  (∀ seed, Rel (R₁.init seed) (R₂.init seed)) ∧
  (∀ s₁ s₂, Rel s₁ s₂ → ∀ k,
    (R₁.randbelow s₁ k).1 = (R₂.randbelow s₂ k).1 ∧
    Rel (R₁.randbelow s₁ k).2 (R₂.randbelow s₂ k).2)

/-! ### Helper lemmas -/

lemma tier_idx_lt_16 (i n : ℕ) : tier_idx i n < 16 := by
  have h : ∀ z : ℤ, (min 15 (max 0 z)).toNat < 16 := by intro z; omega
  exact h _

lemma length_split (l : List Candidate) : (split_into_16_tiers l).length = 16 := by
  simp [split_into_16_tiers]

lemma getD_split (l : List Candidate) (t : ℕ) (ht : t < 16) :
    (split_into_16_tiers l).getD t [] =
      (l.enum.filter (fun p => tier_idx p.1 l.length == t)).map Prod.snd := by
  simp [split_into_16_tiers, List.getD_eq_getElem?_getD, List.getElem?_map,
        List.getElem?_range ht]

/-- The candidate at rank `i` lands in the tier computed by `tier_idx`. -/
lemma get_mem_split (l : List Candidate) (i : ℕ) (h : i < l.length) :
    l.get ⟨i, h⟩ ∈ (split_into_16_tiers l).getD (tier_idx i l.length) [] := by
  rw [getD_split _ _ (tier_idx_lt_16 i l.length)]
  refine List.mem_map.mpr ⟨(i, l.get ⟨i, h⟩), List.mem_filter.mpr ⟨?_, by simp⟩, rfl⟩
  exact List.mk_mem_enum_iff_getElem?.mpr (List.getElem?_eq_getElem h)

lemma count_filter_eq {α : Type} [DecidableEq α] (p : α → Bool) (l : List α)
    (a : α) : (l.filter p).count a = if p a = true then l.count a else 0 := by
  split
  · exact List.count_filter ‹_›
  · rw [List.count_eq_zero]
    intro hmem
    exact absurd (List.mem_filter.mp hmem).2 ‹_›

lemma sum_map_range_ite (A c n : ℕ) :
    ((List.range n).map (fun t => if c = t then A else 0)).sum =
      if c < n then A else 0 := by
  induction n with
  | zero => simp
  | succ n ih =>
    rw [List.range_succ, List.map_append, List.sum_append, ih]
    simp only [List.map_cons, List.map_nil, List.sum_cons, List.sum_nil]
    split_ifs <;> omega

/-- Splitting a list into buckets by a function with range below `n` and
flattening back gives a permutation of the list. -/
lemma flatten_buckets_perm {α : Type} [DecidableEq α] (f : α → ℕ) (n : ℕ)
    (l : List α) (hf : ∀ a ∈ l, f a < n) :
    ((List.range n).map (fun t => l.filter (fun a => f a == t))).flatten.Perm l := by
  rw [List.perm_iff_count]
  intro a
  rw [List.count_flatten, List.map_map]
  have hmap : (List.range n).map (List.count a ∘ fun t => l.filter (fun a => f a == t)) =
      (List.range n).map (fun t => if f a = t then l.count a else 0) := by
    apply List.map_congr_left
    intro t _
    simp only [Function.comp]
    rw [count_filter_eq]
    simp [beq_iff_eq]
  rw [hmap, sum_map_range_ite]
  by_cases hmem : a ∈ l
  · rw [if_pos (hf a hmem)]
  · have : l.count a = 0 := List.count_eq_zero.mpr hmem
    simp [this]

/-- The flattened tier partition is a permutation of its input. -/
lemma split_flatten_perm (l : List Candidate) :
    (split_into_16_tiers l).flatten.Perm l := by
  have h1 : split_into_16_tiers l =
      ((List.range 16).map (fun t =>
        l.enum.filter (fun p => tier_idx p.1 l.length == t))).map
        (List.map Prod.snd) := by
    simp [split_into_16_tiers, List.map_map]
  rw [h1, ← List.map_flatten]
  have h2 := flatten_buckets_perm (fun p : ℕ × Candidate => tier_idx p.1 l.length)
    16 l.enum (fun a _ => tier_idx_lt_16 a.1 l.length)
  have h3 := h2.map Prod.snd
  rw [List.enum_map_snd l] at h3
  exact h3

lemma choiceO_eq_none_iff {σ α : Type} (R : PRNG σ) (s : σ) (l : List α) :
    choiceO R s l = none ↔ l = [] := by
  cases l <;> simp [choiceO]

/-- The banker search loop returns the draw from the first tier of the
order whose exclusion-filtered pool is non-empty, not-found otherwise. -/
lemma searchLoop_eq_find {σ : Type} (R : PRNG σ) (tiers : List (List Candidate))
    (exclude : List ℤ) (s : σ) (desired : ℕ) (order : List ℕ) :
    searchLoop R tiers exclude s desired order =
      match order.find? (fun t => !(eligiblePool tiers exclude t).isEmpty) with
      | none => .error .notFound
      | some t =>
        match choiceO R s (eligiblePool tiers exclude t) with
        | none => .error .notFound
        | some (pick, _) =>
          .ok { target_tier := desired, picked_tier := t
                player := { id := pick.id, name := pick.name, team := pick.team } } := by
  induction order with
  | nil => rfl
  | cons t rest ih =>
    by_cases hp : eligiblePool tiers exclude t = []
    · have hc : choiceO R s (eligiblePool tiers exclude t) = none :=
        (choiceO_eq_none_iff R s _).mpr hp
      rw [List.find?_cons_of_neg _ (by simp [hp])]
      show (match choiceO R s (eligiblePool tiers exclude t) with
        | none => searchLoop R tiers exclude s desired rest
        | some (pick, _) => _) = _
      rw [hc]
      exact ih
    · rw [List.find?_cons_of_pos _ (by simp [hp])]
      show (match choiceO R s (eligiblePool tiers exclude t) with
        | none => searchLoop R tiers exclude s desired rest
        | some (pick, _) =>
            Except.ok { target_tier := desired, picked_tier := t
                        player := { id := pick.id, name := pick.name,
                                    team := pick.team } }) = _
      cases hc : choiceO R s (eligiblePool tiers exclude t) with
      | none => exact absurd ((choiceO_eq_none_iff R s _).mp hc) hp
      | some v => obtain ⟨pick, s2⟩ := v; simp [hc]

lemma clamp_tier_bounds (z : ℤ) : 1 ≤ clamp_tier z ∧ clamp_tier z ≤ 16 := by
  unfold clamp_tier; omega

/-- The code's outward tier search order matches the spec's. -/
lemma tier_order_eq_spec (t : ℕ) (h1 : 1 ≤ t) (h16 : t ≤ 16) :
    tier_order t = spec_search_order t := by
  interval_cases t <;> rfl

/-! ### Determinism (bisimulation) lemmas for the case generator -/

lemma get_congr_idx {α : Type} (l : List α) {i j : ℕ}
    (hi : i < l.length) (hj : j < l.length) (h : i = j) :
    l.get ⟨i, hi⟩ = l.get ⟨j, hj⟩ := by subst h; rfl

lemma choiceO_bisim {σ₁ σ₂ α : Type} {R₁ : PRNG σ₁} {R₂ : PRNG σ₂}
    {Rel : σ₁ → σ₂ → Prop} (hB : Bisim R₁ R₂ Rel) {s₁ : σ₁} {s₂ : σ₂}
    (hs : Rel s₁ s₂) (l : List α) :
    (choiceO R₁ s₁ l = none ∧ choiceO R₂ s₂ l = none) ∨
    (∃ a t₁ t₂, choiceO R₁ s₁ l = some (a, t₁) ∧ choiceO R₂ s₂ l = some (a, t₂) ∧
      Rel t₁ t₂) := by
  cases l with
  | nil => exact Or.inl ⟨rfl, rfl⟩
  | cons a rest =>
    obtain ⟨hfst, hsnd⟩ := hB.2 s₁ s₂ hs (a :: rest).length
    refine Or.inr ⟨_, _, _, rfl, ?_, hsnd⟩
    have hget := get_congr_idx (a :: rest)
      (R₂.randbelow_lt s₂ (a :: rest).length (Nat.succ_pos rest.length))
      (R₁.randbelow_lt s₁ (a :: rest).length (Nat.succ_pos rest.length)) hfst.symm
    exact congrArg (fun x => some (x, (R₂.randbelow s₂ (a :: rest).length).2)) hget

lemma drawTiers_bisim {σ₁ σ₂ : Type} {R₁ : PRNG σ₁} {R₂ : PRNG σ₂}
    {Rel : σ₁ → σ₂ → Prop} (hB : Bisim R₁ R₂ Rel) :
    ∀ (tiers : List (List Candidate)) (idx : ℕ) {s₁ : σ₁} {s₂ : σ₂},
      Rel s₁ s₂ →
      (∃ e, drawTiers R₁ tiers idx s₁ = .error e ∧
        drawTiers R₂ tiers idx s₂ = .error e) ∨
      (∃ picks t₁ t₂, drawTiers R₁ tiers idx s₁ = .ok (picks, t₁) ∧
        drawTiers R₂ tiers idx s₂ = .ok (picks, t₂) ∧ Rel t₁ t₂) := by
  intro tiers
  induction tiers with
  | nil => exact fun idx _ _ hs => Or.inr ⟨[], _, _, rfl, rfl, hs⟩
  | cons tier rest ih =>
    intro idx s₁ s₂ hs
    rcases choiceO_bisim hB hs tier with ⟨h1, h2⟩ | ⟨a, t₁, t₂, h1, h2, ht⟩
    · exact Or.inl ⟨.tierEmpty idx, by simp [drawTiers, h1], by simp [drawTiers, h2]⟩
    · rcases ih (idx + 1) ht with ⟨e, he1, he2⟩ | ⟨picks, u₁, u₂, hp1, hp2, hu⟩
      · exact Or.inl ⟨e, by simp [drawTiers, h1, he1], by simp [drawTiers, h2, he2]⟩
      · exact Or.inr ⟨(idx, a) :: picks, u₁, u₂, by simp [drawTiers, h1, hp1],
          by simp [drawTiers, h2, hp2], hu⟩

lemma shuffleAux_bisim {σ₁ σ₂ α : Type} {R₁ : PRNG σ₁} {R₂ : PRNG σ₂}
    {Rel : σ₁ → σ₂ → Prop} (hB : Bisim R₁ R₂ Rel) :
    ∀ (i : ℕ) (l : List α) {s₁ : σ₁} {s₂ : σ₂}, Rel s₁ s₂ →
      (shuffleAux R₁ i l s₁).1 = (shuffleAux R₂ i l s₂).1 ∧
      Rel (shuffleAux R₁ i l s₁).2 (shuffleAux R₂ i l s₂).2 := by
  intro i
  induction i with
  | zero => exact fun l _ _ hs => ⟨rfl, hs⟩
  | succ i ih =>
    intro l s₁ s₂ hs
    obtain ⟨hfst, hsnd⟩ := hB.2 s₁ s₂ hs (i + 2)
    simp only [shuffleAux]
    rw [hfst]
    exact ih _ hsnd

lemma build_case_pool_bisim {σ₁ σ₂ : Type} {R₁ : PRNG σ₁} {R₂ : PRNG σ₂}
    {Rel : σ₁ → σ₂ → Prop} (hB : Bisim R₁ R₂ Rel)
    (candidates : List Candidate) (seed : ℤ) :
    build_case_pool_from_candidates R₁ candidates seed =
      build_case_pool_from_candidates R₂ candidates seed := by
  simp only [build_case_pool_from_candidates]
  by_cases hlen : (sortByScoreDesc candidates).length < 16
  · simp only [if_pos hlen]
  · simp only [if_neg hlen]
    rcases drawTiers_bisim hB (split_into_16_tiers (sortByScoreDesc candidates)) 1
      (hB.1 seed) with ⟨e, he1, he2⟩ | ⟨picks, t₁, t₂, hp1, hp2, ht⟩
    · simp only [he1, he2]
    · simp only [hp1, hp2]
      have hsh := (shuffleAux_bisim hB (picks.length - 1) picks ht).1
      simp only [pyShuffle] at hsh ⊢
      rw [hsh]

lemma pyTruncInt_eq_floor {q : ℚ} (h : 0 ≤ q) : pyTruncInt q = Int.floor q := by
  simp [pyTruncInt, not_lt.mpr h]

/-- The code's tier formula agrees with the spec's formula at every
in-range rank. -/
lemma tier_idx_eq_spec (i n : ℕ) (hn : 1 ≤ n) :
    tier_idx i n = spec_tier_index i n := by
  have key : ∀ r : ℚ, pyTruncInt (r ^ 2 * 16) = Int.floor (r ^ 2 * 16) :=
    fun r => pyTruncInt_eq_floor (by positivity)
  simp only [tier_idx, spec_tier_index, key]
  rcases eq_or_lt_of_le hn with h1 | h1
  · have hlen : n = 1 := h1.symm
    subst hlen
    norm_num
  · have hne : n ≠ 1 := by omega
    rw [if_pos h1, if_neg hne]

lemma tier_idx_zero (n : ℕ) : tier_idx 0 n = 0 := by
  have hrank : (1 - (if 1 < n then ((0 : ℕ) : ℚ) / ((n : ℚ) - 1) else 0)) = 1 := by
    split <;> simp
  simp only [tier_idx, hrank]
  norm_num [pyTruncInt]

lemma tier_idx_last (n : ℕ) (h : 2 ≤ n) : tier_idx (n - 1) n = 15 := by
  have h1 : 1 < n := h
  have hcast : (((n - 1 : ℕ) : ℚ)) = (n : ℚ) - 1 := by
    push_cast [Nat.cast_sub (by omega : 1 ≤ n)]
    ring
  have hgt : (1 : ℚ) < (n : ℚ) := by exact_mod_cast h1
  have hne : ((n : ℚ) - 1) ≠ 0 := sub_ne_zero.mpr (ne_of_gt hgt)
  simp only [tier_idx, if_pos h1, hcast, div_self hne]
  norm_num [pyTruncInt]
  rfl

/-- A tier whose index is hit by no rank is empty. -/
lemma split_getD_eq_nil (l : List Candidate) (t : ℕ) (ht : t < 16)
    (h : ∀ i, i < l.length → tier_idx i l.length ≠ t) :
    (split_into_16_tiers l).getD t [] = [] := by
  rw [getD_split l t ht, List.map_eq_nil_iff, List.filter_eq_nil_iff]
  intro p hp
  have hlt : p.1 < l.length :=
    (List.getElem?_eq_some.mp (List.mk_mem_enum_iff_getElem?.mp hp)).1
  simp [h p.1 hlt]

/-- If the first tier is non-empty and the second is empty, the draw loop
started at tier 1 fails with the tier-2 empty inconsistency. -/
lemma drawTiers_second_empty {σ : Type} (R : PRNG σ) (t0 : List Candidate)
    (rest : List (List Candidate)) (s : σ) (h0 : t0 ≠ []) :
    drawTiers R (t0 :: [] :: rest) 1 s = .error (.tierEmpty 2) := by
  cases t0 with
  | nil => exact absurd rfl h0
  | cons a r => rfl

/-! ### Claim theorems -/

/-- C6: Position classification follows the spec's rule table for every
input: "F-C" with height ≥ 82 gives C else PF; "F" with height ≥ 81 gives
PF, shorter with 3PT% ≥ 32.0 gives SF else PF; "G-F" with height ≥ 78
gives SF else SG; "G" with height ≥ 77 gives SG else PG; "C" gives C; any
other or empty raw position gives SF; an empty or unparseable height
string is treated as 0 inches; and the six §8 example calls return
C, PF, SF, PF, SG, SF respectively. -/
theorem c6_position_rule_table (ht : String) (fg3 : ℚ) :
    (normalize_position "F-C" ht fg3 =
      if 82 ≤ parse_height_inches ht then "C" else "PF") ∧
    (normalize_position "F" ht fg3 =
      if 81 ≤ parse_height_inches ht then "PF"
      else if 32.0 ≤ fg3 then "SF" else "PF") ∧
    (normalize_position "G-F" ht fg3 =
      if 78 ≤ parse_height_inches ht then "SF" else "SG") ∧
    (normalize_position "G" ht fg3 =
      if 77 ≤ parse_height_inches ht then "SG" else "PG") ∧
    (normalize_position "C" ht fg3 = "C") ∧
    (∀ raw : String,
      pyStrip (pyUpper raw) ∉ (["F-C", "F", "G-F", "G", "C"] : List String) →
      normalize_position raw ht fg3 = "SF") ∧
    parse_height_inches "" = 0 ∧ parse_height_inches "6;8" = 0 ∧
    parse_height_inches "6-x" = 0 ∧
    normalize_position "F-C" "6-10" 0 = "C" ∧
    normalize_position "F-C" "6-8" 0 = "PF" ∧
    normalize_position "F" "6-5" 40.0 = "SF" ∧
    normalize_position "F" "6-5" 20.0 = "PF" ∧
    normalize_position "G" "6-6" 0 = "SG" ∧
    normalize_position "" "" 0 = "SF" := by
  refine ⟨rfl, rfl, rfl, rfl, rfl, ?_, by decide, by decide, by decide,
    by decide, by decide, by decide, by decide, by decide, by decide⟩
  intro raw hraw
  simp only [List.mem_cons, List.not_mem_nil, or_false, not_or] at hraw
  obtain ⟨h1, h2, h3, h4, h5⟩ := hraw
  simp only [normalize_position]
  rw [if_neg h1, if_neg h2, if_neg h3, if_neg h4, if_neg h5]

/-- C7: For every stat row, the production score equals
PTS + 1.2·REB + 1.5·AST + 3.0·STL + 3.0·BLK − 2.0·TOV with each missing
field treated as 0; a row with PTS=20, REB=10, AST=5, STL=2, BLK=1, TOV=3
scores exactly 42.5. -/
theorem c7_production_score (pid gp minpg fg3 : Option Val)
    (pts reb ast stl blk tov : Option ℚ) :
    production_score_pergame
      { PLAYER_ID := pid, GP := gp, MIN := minpg
        PTS := pts.map .num, REB := reb.map .num, AST := ast.map .num
        STL := stl.map .num, BLK := blk.map .num, TOV := tov.map .num
        FG3_PCT := fg3 } =
      .ok (pts.getD 0 + 1.2 * reb.getD 0 + 1.5 * ast.getD 0 +
        3.0 * stl.getD 0 + 3.0 * blk.getD 0 - 2.0 * tov.getD 0) ∧
    production_score_pergame
      { PTS := some (.num 20), REB := some (.num 10), AST := some (.num 5)
        STL := some (.num 2), BLK := some (.num 1), TOV := some (.num 3) } =
      .ok (42.5 : ℚ) := by
  constructor
  · have hgd : ∀ o : Option ℚ, (o.map Val.num).getD (Val.num 0) = Val.num (o.getD 0) := by
      intro o; cases o <;> rfl
    simp only [production_score_pergame, hgd, pyFloat]
    rfl
  · decide

/-- Witness for C6: the theorem applied at concrete inputs, discharging
the fallback-rule hypothesis at the raw position "X". -/
theorem c6_position_rule_table_witness :
    normalize_position "X" "6-10" 0 = "SF" ∧
    normalize_position "F-C" "6-10" 0 = "C" :=
  ⟨(c6_position_rule_table "6-10" 0).2.2.2.2.2.1 "X" (by decide),
   (c6_position_rule_table "6-10" 0).2.2.2.2.2.2.2.2.2.1⟩

/-- C2: For every list of n ≥ 1 candidates sorted descending by score, the
candidate at 0-based rank i is assigned the tier whose 0-based index is
15 − ⌊((1 − i/(n−1))²)·16⌋ clamped to [0, 15] (rank_fraction 1.0 when
n = 1); the index is below 16, i.e. the stored 1-based tier is in 1..16. -/
theorem c2_rank_curve_assignment (l : List Candidate)
    (hsorted : l.Sorted (fun a b => b.score ≤ a.score)) (hn : 1 ≤ l.length)
    (i : ℕ) (h : i < l.length) :
    tier_idx i l.length = spec_tier_index i l.length ∧
    spec_tier_index i l.length < 16 ∧
    l.get ⟨i, h⟩ ∈ (split_into_16_tiers l).getD (spec_tier_index i l.length) [] := by
  have heq : tier_idx i l.length = spec_tier_index i l.length :=
    tier_idx_eq_spec i l.length hn
  exact ⟨heq, heq ▸ tier_idx_lt_16 i l.length, heq ▸ get_mem_split l i h⟩

/-- Witness for C2: the 16-candidate demo pool, rank 3, lands in the tier
the spec formula computes. -/
theorem c2_rank_curve_assignment_witness :
    tier_idx 3 demoPool16.length = spec_tier_index 3 demoPool16.length ∧
    spec_tier_index 3 demoPool16.length < 16 ∧
    demoPool16.get ⟨3, by decide⟩ ∈
      (split_into_16_tiers demoPool16).getD (spec_tier_index 3 demoPool16.length) [] :=
  c2_rank_curve_assignment demoPool16 (by decide) (by decide) 3 (by decide)

/-- C3: For every pool of at least 16 candidates, partitioning (sorting
descending, then splitting) yields exactly 16 tiers whose concatenation is
a permutation of the input pool: every candidate in exactly one tier, none
duplicated, none omitted. -/
theorem c3_partition_exact (l : List Candidate) (h16 : 16 ≤ l.length) :
    (split_into_16_tiers (sortByScoreDesc l)).length = 16 ∧
    (split_into_16_tiers (sortByScoreDesc l)).flatten.Perm l := by
  refine ⟨length_split _, ?_⟩
  have hperm : (sortByScoreDesc l).Perm l := by
    unfold sortByScoreDesc
    exact List.perm_insertionSort _ l
  exact (split_flatten_perm (sortByScoreDesc l)).trans hperm

/-- Witness for C3: the theorem applied to the 16-candidate demo pool. -/
theorem c3_partition_exact_witness :
    (split_into_16_tiers (sortByScoreDesc demoPool16)).length = 16 ∧
    (split_into_16_tiers (sortByScoreDesc demoPool16)).flatten.Perm demoPool16 :=
  c3_partition_exact demoPool16 (by decide)

/-- C10: For every list of at least 2 candidates sorted descending by
score, tier 1 and tier 16 are non-empty: rank 0 lands in tier 1 (index 0)
and the last rank (rank_fraction 0) lands in tier 16 (index 15); for a
single-candidate list the candidate lands in tier 1. -/
theorem c10_extreme_tiers_nonempty (l : List Candidate)
    (hsorted : l.Sorted (fun a b => b.score ≤ a.score)) :
    (∀ h2 : 2 ≤ l.length,
      l.get ⟨0, by omega⟩ ∈ (split_into_16_tiers l).getD 0 [] ∧
      l.get ⟨l.length - 1, by omega⟩ ∈ (split_into_16_tiers l).getD 15 [] ∧
      (split_into_16_tiers l).getD 0 [] ≠ [] ∧
      (split_into_16_tiers l).getD 15 [] ≠ []) ∧
    (∀ h1 : l.length = 1, l.get ⟨0, by omega⟩ ∈ (split_into_16_tiers l).getD 0 []) := by
  constructor
  · intro h2
    have hm0 := get_mem_split l 0 (by omega)
    rw [tier_idx_zero] at hm0
    have hmL := get_mem_split l (l.length - 1) (by omega)
    rw [tier_idx_last l.length h2] at hmL
    exact ⟨hm0, hmL, List.ne_nil_of_mem hm0, List.ne_nil_of_mem hmL⟩
  · intro h1
    have hm0 := get_mem_split l 0 (by omega)
    rw [tier_idx_zero] at hm0
    exact hm0

/-- Witness for C10: the demo pools of sizes 16 and 1. -/
theorem c10_extreme_tiers_nonempty_witness :
    demoPool16.get ⟨0, by decide⟩ ∈ (split_into_16_tiers demoPool16).getD 0 [] ∧
    demoPool16.get ⟨demoPool16.length - 1, by decide⟩ ∈
      (split_into_16_tiers demoPool16).getD 15 [] ∧
    (split_into_16_tiers demoPool16).getD 0 [] ≠ [] ∧
    (split_into_16_tiers demoPool16).getD 15 [] ≠ [] :=
  (c10_extreme_tiers_nonempty demoPool16 (by decide)).1 (by decide)

/-- C9: Pool building fails with the configuration-error (insufficient
data) condition whenever the roster snapshot is empty, for every stats
snapshot (and any well-formed slot filter), and this condition is distinct
from the pool-too-small condition; it fails with the invalid-input
condition whenever a slot filter not normalizing to one of PG, SG, SF,
PF, C is supplied. -/
theorem c9_insufficient_data_and_invalid_slot :
    (∀ (stats : List StatRowR) (slot : Option String),
      (∀ s, slot = some s → validSlots.contains (pyStrip (pyUpper s)) = true) →
      build_candidates [] stats slot = .error .rosterEmpty) ∧
    (∀ (roster : List (ℤ × RosterMeta)) (stats : List StatRowR) (s : String),
      validSlots.contains (pyStrip (pyUpper s)) = false →
      build_candidates roster stats (some s) = .error .invalidSlot) ∧
    (∀ n, Err.rosterEmpty ≠ Err.notEnough n) ∧
    Err.rosterEmpty ≠ Err.invalidSlot := by
  refine ⟨?_, ?_, ?_, ?_⟩
  · intro stats slot hslot
    cases slot with
    | none => rfl
    | some s =>
      have hv : pyStrip (pyUpper s) ∈ validSlots := by simpa using hslot s rfl
      simp [build_candidates, hv]
  · intro roster stats s hv
    have hv' : pyStrip (pyUpper s) ∉ validSlots := by simpa using hv
    simp [build_candidates, hv']
  · intro n h
    exact Err.noConfusion h
  · intro h
    exact Err.noConfusion h

/-- Witness for C9: empty roster with empty stats and no slot filter;
a malformed slot filter "XX". -/
theorem c9_insufficient_data_and_invalid_slot_witness :
    build_candidates [] [] none = .error .rosterEmpty ∧
    build_candidates [] [] (some "XX") = .error .invalidSlot :=
  ⟨c9_insufficient_data_and_invalid_slot.1 [] none (by intro s hs; cases hs),
   c9_insufficient_data_and_invalid_slot.2.1 [] [] "XX" (by decide)⟩

/-- C5: For every banker-offer request, the code's behavior refines the
spec: tiers are examined in the order t, t−1, t+1, t−2, t+2, …
(lower first, out-of-range skipped), the result is one candidate drawn
from the first tier in this order with a non-excluded candidate, returned
with the requested and the picked tier, and exhaustion yields not-found;
in particular with target 8 and tiers 7, 8, 9 fully excluded but tier 6
non-empty the picked tier is 6. -/
theorem c5_banker_offer_search {σ : Type} (R : PRNG σ)
    (roster : List (ℤ × RosterMeta)) (stats : List StatRowR) (slot : String)
    (target_tier seed : ℤ) (exclude : List ℤ) :
    banker_offer R roster stats slot target_tier seed exclude =
      spec_banker_offer R roster stats slot target_tier seed exclude ∧
    banker_offer rngDemo demoRoster34 demoStats34 "PG" 8 0 [8, 9, 10, 11, 12] =
      .ok { target_tier := 8, picked_tier := 6
            player := { id := 7, name := "p", team := "t" } } := by
  constructor
  · simp only [banker_offer, spec_banker_offer]
    split
    · rfl
    · cases hb : build_candidates roster stats (some (pyStrip (pyUpper slot))) with
      | error e => rfl
      | ok cands =>
        by_cases hlen : (sortByScoreDesc cands).length < 16
        · simp only [if_pos hlen]
        · simp only [if_neg hlen]
          rw [searchLoop_eq_find,
            tier_order_eq_spec _ (clamp_tier_bounds target_tier).1
              (clamp_tier_bounds target_tier).2]
          simp only [spec_resolve]
  · decide

/-- C4: Session generation is deterministic: with all randomness drawn
from a single generator seeded once (16 sequential per-tier draws starting
at tier 1, then the shuffle continuing the same generator state), any two
bisimilar generator implementations — in particular two runs of the same
seeded generator — produce identical output on the same roster and stats
snapshots, seed and slot. -/
theorem c4_session_determinism {σ₁ σ₂ : Type} (R₁ : PRNG σ₁) (R₂ : PRNG σ₂)
    (Rel : σ₁ → σ₂ → Prop) (hB : Bisim R₁ R₂ Rel)
    (roster : List (ℤ × RosterMeta)) (stats : List StatRowR) (seed : ℤ)
    (slot : Option String) :
    generate_cases_by_slot R₁ roster stats seed slot =
      generate_cases_by_slot R₂ roster stats seed slot := by
  unfold generate_cases_by_slot
  cases build_candidates roster stats slot with
  | error e => rfl
  | ok c => exact build_case_pool_bisim hB c seed

/-- Witness for C4: two calls of the same seeded demo generator agree. -/
theorem c4_session_determinism_witness :
    generate_cases_by_slot rngDemo demoRoster34 demoStats34 42 (some "PG") =
      generate_cases_by_slot rngDemo demoRoster34 demoStats34 42 (some "PG") :=
  c4_session_determinism rngDemo rngDemo Eq
    ⟨fun _ => rfl, fun s₁ s₂ h k => by subst h; exact ⟨rfl, rfl⟩⟩
    demoRoster34 demoStats34 42 (some "PG")

/-- Counterexample to C1: a pool of exactly 16 candidates (distinct
descending scores) leaves tier 2 (0-based index 1) empty, and case
generation fails with the tier-empty 500 condition instead of succeeding
with one candidate per tier. -/
theorem c1_sixteen_pool_counterexample :
    demoPool16.length = 16 ∧
    (split_into_16_tiers demoPool16).getD 1 [] = [] ∧
    build_case_pool_from_candidates rngDemo demoPool16 42 =
      .error (.tierEmpty 2) :=
  ⟨by decide, by decide, by decide⟩

/-- C1 (amended): For every pool of exactly 16 candidates, the γ=2 rank
curve leaves tiers 2, 5, 7 and 10 empty (0-based indices 1, 4, 6, 9), so
case generation never succeeds: it always fails with the tier-empty
internal inconsistency at tier 2, for every generator and seed. -/
theorem c1_sixteen_pool_amended (c : List Candidate) (h : c.length = 16)
    {σ : Type} (R : PRNG σ) (seed : ℤ) :
    (split_into_16_tiers (sortByScoreDesc c)).getD 1 [] = [] ∧
    (split_into_16_tiers (sortByScoreDesc c)).getD 4 [] = [] ∧
    (split_into_16_tiers (sortByScoreDesc c)).getD 6 [] = [] ∧
    (split_into_16_tiers (sortByScoreDesc c)).getD 9 [] = [] ∧
    build_case_pool_from_candidates R c seed = .error (.tierEmpty 2) := by
  have hlen : (sortByScoreDesc c).length = 16 := by
    unfold sortByScoreDesc
    rw [(List.perm_insertionSort _ c).length_eq, h]
  have hempty : ∀ t : ℕ, t < 16 → (∀ i, i < 16 → tier_idx i 16 ≠ t) →
      (split_into_16_tiers (sortByScoreDesc c)).getD t [] = [] := by
    intro t ht haux
    refine split_getD_eq_nil _ t ht (fun i hi => ?_)
    rw [hlen] at hi ⊢
    exact haux i hi
  have e1 := hempty 1 (by norm_num) (by decide)
  refine ⟨e1, hempty 4 (by norm_num) (by decide), hempty 6 (by norm_num) (by decide),
    hempty 9 (by norm_num) (by decide), ?_⟩
  obtain ⟨t0, t1, rest, hsp⟩ : ∃ t0 t1 rest,
      split_into_16_tiers (sortByScoreDesc c) = t0 :: t1 :: rest := by
    rcases hS : split_into_16_tiers (sortByScoreDesc c) with _ | ⟨a, _ | ⟨b, r⟩⟩
    · exfalso
      have hl := length_split (sortByScoreDesc c)
      rw [hS] at hl
      simp at hl
    · exfalso
      have hl := length_split (sortByScoreDesc c)
      rw [hS] at hl
      simp at hl
    · exact ⟨a, b, r, rfl⟩
  have ht1 : t1 = [] := by
    rw [hsp] at e1
    simpa [List.getD] using e1
  have ht0 : t0 ≠ [] := by
    have hm := get_mem_split (sortByScoreDesc c) 0 (by omega)
    rw [tier_idx_zero, hsp] at hm
    simp only [List.getD] at hm
    exact List.ne_nil_of_mem (by simpa using hm)
  simp only [build_case_pool_from_candidates]
  rw [if_neg (by omega : ¬ (sortByScoreDesc c).length < 16)]
  rw [ht1] at hsp
  rw [hsp, drawTiers_second_empty R t0 rest (R.init seed) ht0]

/-- Witness for C1 (amended): the theorem applied to the 16-candidate demo
pool with the demo generator. -/
theorem c1_sixteen_pool_amended_witness :
    (split_into_16_tiers (sortByScoreDesc demoPool16)).getD 1 [] = [] ∧
    (split_into_16_tiers (sortByScoreDesc demoPool16)).getD 4 [] = [] ∧
    (split_into_16_tiers (sortByScoreDesc demoPool16)).getD 6 [] = [] ∧
    (split_into_16_tiers (sortByScoreDesc demoPool16)).getD 9 [] = [] ∧
    build_case_pool_from_candidates rngDemo demoPool16 42 =
      .error (.tierEmpty 2) :=
  c1_sixteen_pool_amended demoPool16 (by decide) rngDemo 42

/-- Counterexample to C8: a stats snapshot with a single row carrying a
valid player id on the roster but a non-numeric GP cell makes the pool
build abort with an uncaught fault instead of skipping the row or coercing
the field to 0. -/
theorem c8_malformed_row_counterexample :
    build_candidates demoRoster1 [demoJunkGPRow] none = .error .fault := by
  decide

/-- C8 (amended): A row with a missing or malformed player id is skipped,
and a malformed three-point-percentage cell is coerced to 0; but a
malformed numeric cell among GP/MIN/PTS/REB/AST/STL/BLK/TOV is read by an
unguarded `float()` and aborts the whole pool build with a fault
(shown at the concrete one-row snapshot). -/
theorem c8_row_errors_amended (roster : List (ℤ × RosterMeta))
    (slot : Option String) (row : StatRowR) (rest : List StatRowR)
    (hid : row.PLAYER_ID = none ∨ row.PLAYER_ID = some .junk) :
    build_candidates roster (row :: rest) slot =
      build_candidates roster rest slot ∧
    (row.FG3_PCT = some .junk → three_pt_pct row = 0) ∧
    build_candidates demoRoster1 [demoJunkGPRow] none = .error .fault := by
  refine ⟨?_, ?_, by decide⟩
  · have hloop : ∀ sn, buildCandidatesLoop roster sn (row :: rest) =
        buildCandidatesLoop roster sn rest := by
      intro sn
      rcases hid with hnone | hjunk
      · simp [buildCandidatesLoop, hnone]
      · simp [buildCandidatesLoop, hjunk, pyIntOfVal]
    simp only [build_candidates]
    cases slot with
    | none => simp [hloop]
    | some s =>
      by_cases hv : pyStrip (pyUpper s) ∈ validSlots <;> simp [hv, hloop]
  · intro hfg
    simp [three_pt_pct, hfg, pyFloat]

/-- Witness for C8 (amended): a row with no id (and junk 3PT field) in
front of an empty tail. -/
theorem c8_row_errors_amended_witness :
    build_candidates demoRoster1 [demoNoIdRow] none =
      build_candidates demoRoster1 [] none ∧
    (demoNoIdRow.FG3_PCT = some .junk → three_pt_pct demoNoIdRow = 0) ∧
    build_candidates demoRoster1 [demoJunkGPRow] none = .error .fault :=
  c8_row_errors_amended demoRoster1 none demoNoIdRow [] (Or.inl rfl)
